import Mathlib

/-!
Verification development for a resume-building web application.

The application consists of three React pages (`Builder.tsx`, `Dashboard.tsx`,
`TemplateGallery.tsx`) talking to a Postgres store whose schema, row-level
security policies, triggers and seed data are given by a single SQL migration.
This file embeds the data model and the operations of those sources and proves
properties about them.  Machine integers do not occur; identities and
timestamps are modelled by `Nat`, JSON strings by `String`.
-/

set_option linter.unusedVariables false

namespace ResumeApp

/-- The `personalInfo` block of the `ResumeContent` interface in `Builder.tsx`. -/
structure PersonalInfo where
  fullName : String
  email : String
  phone : String
  location : String
  summary : String
deriving Repr, DecidableEq

/-- One entry of the `experience` array of `ResumeContent` in `Builder.tsx`. -/
structure Experience where
  id : String
  company : String
  position : String
  startDate : String
  endDate : String
  description : String
deriving Repr, DecidableEq

/-- One entry of the `education` array of `ResumeContent` in `Builder.tsx`. -/
structure Education where
  id : String
  school : String
  degree : String
  startDate : String
  endDate : String
  description : String
deriving Repr, DecidableEq

/-- The in-memory `ResumeContent` structure of `Builder.tsx`: all four
sub-structures present (this is the TypeScript-declared shape). -/
structure ResumeContent where
  personalInfo : PersonalInfo
  experience : List Experience
  education : List Education
  skills : List String
deriving Repr, DecidableEq

/-- A stored resume content JSON document.  Since the `content` column is
untyped JSONB, each sub-structure may be absent; `none` models an absent
key.  The TypeScript cast in `fetchResume` performs no conversion, so a
loaded document keeps exactly this shape at runtime. -/
structure StoredDoc where
  personalInfo : Option PersonalInfo
  experience : Option (List Experience)
  education : Option (List Education)
  skills : Option (List String)
deriving Repr, DecidableEq

/-- The empty personal-info block used by `Builder.tsx` as initial state and
as the fallback literal in `fetchResume`. -/
def emptyPersonalInfo : PersonalInfo :=
  { fullName := "", email := "", phone := "", location := "", summary := "" }

/-- The default content literal of `Builder.tsx` (initial `useState` value and
the right-hand side of `data.content || ...` in `fetchResume`). -/
def defaultResumeContent : ResumeContent :=
  { personalInfo := emptyPersonalInfo, experience := [], education := [], skills := [] }

/-- Serialisation of a full in-memory content structure into a stored JSON
document: every sub-structure is present. -/
def ResumeContent.toStored (c : ResumeContent) : StoredDoc :=
  { personalInfo := some c.personalInfo, experience := some c.experience,
    education := some c.education, skills := some c.skills }

/-- The stored JSON document `\x7b\x7d` (the column default of
`resumes.content`): every sub-structure absent. -/
def emptyJsonDoc : StoredDoc :=
  { personalInfo := none, experience := none, education := none, skills := none }

/-- Whether a stored document has all four sub-structures present. -/
def StoredDoc.fullyDefined (d : StoredDoc) : Bool :=
  d.personalInfo.isSome && d.experience.isSome && d.education.isSome && d.skills.isSome

/-- The normalisation step of `fetchResume` in `Builder.tsx`:
`(data.content as unknown as ResumeContent) || defaultLiteral`.
The JavaScript `||` falls back to the default literal exactly when the whole
stored value is falsy (JSON `null`, modelled by `none`); a present document
is taken as-is. -/
def loadContent : Option StoredDoc → StoredDoc
  | none => defaultResumeContent.toStored
  | some d => d

/-! ### Editing-session operations of `Builder.tsx`

Each handler calls `setContent` with an object spread that copies every
untouched field.  `crypto.randomUUID()` is modelled by passing the generated
identifier as an argument. -/

/-- `addExperience` of `Builder.tsx`: append a blank entry carrying the
freshly generated identifier. -/
def addExperience (newId : String) (c : ResumeContent) : ResumeContent :=
  { c with experience := c.experience ++
      [{ id := newId, company := "", position := "", startDate := "",
         endDate := "", description := "" }] }

/-- The field names `updateExperience` is invoked with by the UI
(`\x7b ...exp, [field]: value \x7d` with `field` one of these five). -/
inductive ExpField where
  | company | position | startDate | endDate | description
deriving Repr, DecidableEq

/-- Dynamic field assignment `\x7b ...exp, [field]: value \x7d` on an
experience entry. -/
def setExpField (f : ExpField) (v : String) (e : Experience) : Experience :=
  match f with
  | .company => { e with company := v }
  | .position => { e with position := v }
  | .startDate => { e with startDate := v }
  | .endDate => { e with endDate := v }
  | .description => { e with description := v }

/-- `updateExperience` of `Builder.tsx`. -/
def updateExperience (id : String) (f : ExpField) (v : String) (c : ResumeContent) :
    ResumeContent :=
  { c with experience := c.experience.map fun exp =>
      if exp.id == id then setExpField f v exp else exp }

/-- `removeExperience` of `Builder.tsx`. -/
def removeExperience (id : String) (c : ResumeContent) : ResumeContent :=
  { c with experience := c.experience.filter fun exp => exp.id != id }

/-- `addEducation` of `Builder.tsx`. -/
def addEducation (newId : String) (c : ResumeContent) : ResumeContent :=
  { c with education := c.education ++
      [{ id := newId, school := "", degree := "", startDate := "",
         endDate := "", description := "" }] }

/-- The field names `updateEducation` is invoked with by the UI. -/
inductive EduField where
  | school | degree | startDate | endDate | description
deriving Repr, DecidableEq

/-- Dynamic field assignment on an education entry. -/
def setEduField (f : EduField) (v : String) (e : Education) : Education :=
  match f with
  | .school => { e with school := v }
  | .degree => { e with degree := v }
  | .startDate => { e with startDate := v }
  | .endDate => { e with endDate := v }
  | .description => { e with description := v }

/-- `updateEducation` of `Builder.tsx`. -/
def updateEducation (id : String) (f : EduField) (v : String) (c : ResumeContent) :
    ResumeContent :=
  { c with education := c.education.map fun edu =>
      if edu.id == id then setEduField f v edu else edu }

/-- `removeEducation` of `Builder.tsx`. -/
def removeEducation (id : String) (c : ResumeContent) : ResumeContent :=
  { c with education := c.education.filter fun edu => edu.id != id }

/-- `addSkill` of `Builder.tsx`. -/
def addSkill (c : ResumeContent) : ResumeContent :=
  { c with skills := c.skills ++ [""] }

/-- `updateSkill` of `Builder.tsx`: copy the array and assign at `index`
(the UI only invokes it with an index of an existing element, which
`List.set` models exactly). -/
def updateSkill (i : Nat) (v : String) (c : ResumeContent) : ResumeContent :=
  { c with skills := c.skills.set i v }

/-- `removeSkill` of `Builder.tsx`: `filter((_, idx) => idx !== index)`,
i.e. drop the element at position `i`. -/
def removeSkill (i : Nat) (c : ResumeContent) : ResumeContent :=
  { c with skills := c.skills.eraseIdx i }

/-- The editing-session state of `Builder.tsx` relevant to the claims:
the `isLoading` and `isSaving` flags and the `title` and `content` states. -/
structure Session where
  isLoading : Bool
  isSaving : Bool
  title : String
  content : ResumeContent
deriving Repr, DecidableEq

/-- The *ready* state of the editing-session state machine: neither loading
nor saving. -/
def Session.ready (s : Session) : Prop :=
  s.isLoading = false ∧ s.isSaving = false

/-- A content-level handler applied to the session: the handlers of
`Builder.tsx` call `setContent` only, never `setTitle`. -/
def Session.applyContentOp (op : ResumeContent → ResumeContent) (s : Session) : Session :=
  { s with content := op s.content }

/-! ### The store: tables, row-level security, triggers

From the SQL migration.  `auth.uid()` (the caller identity) and timestamps
are modelled by `Nat`. -/

/-- A row of `public.resumes`. -/
structure ResumeRow where
  id : Nat
  user_id : Nat
  title : String
  template_id : String
  content : Option StoredDoc
  is_public : Bool
  created_at : Nat
  updated_at : Nat
deriving Repr, DecidableEq

/-- A row of `public.profiles`. -/
structure ProfileRow where
  id : Nat
  user_id : Nat
  display_name : Option String
  avatar_url : Option String
  subscription_tier : String
  created_at : Nat
  updated_at : Nat
deriving Repr, DecidableEq

/-- An UPDATE payload against `public.resumes`: `some v` for a column the
caller assigns, `none` for a column left untouched. -/
structure ResumeUpdate where
  user_id : Option Nat := none
  title : Option String := none
  template_id : Option String := none
  content : Option (Option StoredDoc) := none
  is_public : Option Bool := none
  updated_at : Option Nat := none
deriving Repr

/-- An UPDATE payload against `public.profiles`. -/
structure ProfileUpdate where
  user_id : Option Nat := none
  display_name : Option (Option String) := none
  avatar_url : Option (Option String) := none
  subscription_tier : Option String := none
  updated_at : Option Nat := none
deriving Repr

/-- Apply an UPDATE payload to a resume row (before any trigger fires). -/
def applyResumeUpdate (u : ResumeUpdate) (r : ResumeRow) : ResumeRow :=
  { r with
    user_id := u.user_id.getD r.user_id
    title := u.title.getD r.title
    template_id := u.template_id.getD r.template_id
    content := u.content.getD r.content
    is_public := u.is_public.getD r.is_public
    updated_at := u.updated_at.getD r.updated_at }

/-- Apply an UPDATE payload to a profile row (before any trigger fires). -/
def applyProfileUpdate (u : ProfileUpdate) (p : ProfileRow) : ProfileRow :=
  { p with
    user_id := u.user_id.getD p.user_id
    display_name := u.display_name.getD p.display_name
    avatar_url := u.avatar_url.getD p.avatar_url
    subscription_tier := u.subscription_tier.getD p.subscription_tier
    updated_at := u.updated_at.getD p.updated_at }

/-- The BEFORE UPDATE trigger function `public.update_updated_at_column`:
`NEW.updated_at = now()`.  Attached to `public.resumes` by
`update_resumes_updated_at`. -/
def update_updated_at_column (now : Nat) (r : ResumeRow) : ResumeRow :=
  { r with updated_at := now }

/-- The same trigger function as attached to `public.profiles` by
`update_profiles_updated_at`. -/
def update_updated_at_column_profile (now : Nat) (p : ProfileRow) : ProfileRow :=
  { p with updated_at := now }

/-- RLS policy "Users can view their own resumes":
`USING (auth.uid() = user_id OR is_public = true)`. -/
def resumeSelectAllowed (uid : Nat) (r : ResumeRow) : Bool :=
  uid == r.user_id || r.is_public

/-- RLS policy "Users can update their own resumes":
`FOR UPDATE USING (auth.uid() = user_id)` with no WITH CHECK clause, so
(Postgres semantics) the USING expression is checked against the existing
row and, absent WITH CHECK, also against the updated row. -/
def resumeUpdateAllowed (uid : Nat) (oldRow newRow : ResumeRow) : Bool :=
  (uid == oldRow.user_id) && (uid == newRow.user_id)

/-- RLS policy "Users can update their own profile", same shape. -/
def profileUpdateAllowed (uid : Nat) (oldRow newRow : ProfileRow) : Bool :=
  (uid == oldRow.user_id) && (uid == newRow.user_id)

/-- The store-side effect of an UPDATE on one resume row once it is
permitted: the payload is applied, then the BEFORE UPDATE trigger
overwrites `updated_at` with the store clock. -/
def dbResumeRowUpdate (now : Nat) (u : ResumeUpdate) (r : ResumeRow) : ResumeRow :=
  update_updated_at_column now (applyResumeUpdate u r)

/-- The store-side effect of a permitted UPDATE on one profile row. -/
def dbProfileRowUpdate (now : Nat) (u : ProfileUpdate) (p : ProfileRow) : ProfileRow :=
  update_updated_at_column_profile now (applyProfileUpdate u p)

/-- One row of an `update(...).eq("id", rid)` statement issued by caller
`uid`: a row is updated when it matches the equality predicate and the RLS
update policy admits both the existing and the updated row; otherwise it is
left unchanged. -/
def resumeUpdateStep (now uid rid : Nat) (u : ResumeUpdate) (r : ResumeRow) : ResumeRow :=
  if r.id == rid && resumeUpdateAllowed uid r (applyResumeUpdate u r) then
    dbResumeRowUpdate now u r
  else r

/-- The whole-table effect of `update(...).eq("id", rid)` by caller `uid`. -/
def dbUpdateResumes (now uid rid : Nat) (u : ResumeUpdate) (db : List ResumeRow) :
    List ResumeRow :=
  db.map (resumeUpdateStep now uid rid u)

/-! ### Resume lifecycle operations (client-facing) -/

/-- Ordering relation of `order("updated_at", \x7b ascending: false \x7d)`:
most-recently-updated first. -/
def updatedDescOrder (a b : ResumeRow) : Prop :=
  b.updated_at ≤ a.updated_at

instance : DecidableRel updatedDescOrder :=
  fun a b => Nat.decLe b.updated_at a.updated_at

instance : IsTotal ResumeRow updatedDescOrder :=
  ⟨fun a b => Nat.le_total b.updated_at a.updated_at⟩

instance : IsTrans ResumeRow updatedDescOrder :=
  ⟨fun _ _ _ h1 h2 => Nat.le_trans h2 h1⟩

/-- `fetchResumes` of `Dashboard.tsx`: select everything the RLS select
policy makes visible to the caller, ordered by `updated_at` descending.
No owner filter appears in the query itself. -/
def fetchResumes (uid : Nat) (db : List ResumeRow) : List ResumeRow :=
  List.insertionSort updatedDescOrder (db.filter (resumeSelectAllowed uid))

/-- `fetchResume` of `Builder.tsx`: `select("*").eq("id", id).single()`
under the RLS select policy, then the `|| default` normalisation of the
content.  `.single()` succeeds exactly when one row is visible. -/
def fetchResume (uid rid : Nat) (db : List ResumeRow) : Option (String × StoredDoc) :=
  match db.filter (fun r => r.id == rid && resumeSelectAllowed uid r) with
  | [r] => some (r.title, loadContent r.content)
  | _ => none

/-- The UPDATE payload built by `saveResume` in `Builder.tsx`: title,
content and a client-chosen `updated_at` (`new Date().toISOString()`,
modelled by `clientNow`). -/
def saveResumePayload (title : String) (c : ResumeContent) (clientNow : Nat) : ResumeUpdate :=
  { title := some title, content := some (some c.toStored), updated_at := some clientNow }

/-- `saveResume` of `Builder.tsx` as a session/store transition:
`setIsSaving(true)`, issue the update (`ok` models transport success; on
transport failure the store is untouched and only a toast is shown), and in
the `finally` block `setIsSaving(false)`.  No branch assigns `title` or
`content` of the session. -/
def saveResume (now uid rid clientNow : Nat) (ok : Bool) (s : Session)
    (db : List ResumeRow) : Session × List ResumeRow :=
  let s1 : Session := { s with isSaving := true }
  let db2 : List ResumeRow :=
    if ok then dbUpdateResumes now uid rid (saveResumePayload s.title s.content clientNow) db
    else db
  ({ s1 with isSaving := false }, db2)

/-! ### Template catalog (`TemplateGallery.tsx` and the seed data) -/

/-- A row of `public.resume_templates`.  `rating` is stored in tenths
(DECIMAL(2,1) in the schema); `template_data` is styling JSON never read by
the gallery logic and is omitted. -/
structure Template where
  id : String
  name : String
  category : String
  preview_url : Option String
  is_premium : Bool
  rating : Nat
  downloads : Nat
deriving Repr, DecidableEq

/-- ASCII lowercasing of one character, as `String.prototype.toLowerCase`
acts on the ASCII data occurring in this application. -/
def charToLower (c : Char) : Char :=
  if 65 ≤ c.toNat ∧ c.toNat ≤ 90 then Char.ofNat (c.toNat + 32) else c

/-- Lowercasing of a string. -/
def strToLower (s : String) : String :=
  String.mk (s.data.map charToLower)

/-- Whether `needle` occurs at the start of `hay` (character lists). -/
def charsStartWith : List Char → List Char → Bool
  | [], _ => true
  | _ :: _, [] => false
  | a :: as, b :: bs => a == b && charsStartWith as bs

/-- Whether `needle` occurs contiguously anywhere in `hay`
(`String.prototype.includes`). -/
def charsInclude (needle : List Char) : List Char → Bool
  | [] => charsStartWith needle []
  | c :: rest => charsStartWith needle (c :: rest) || charsInclude needle rest

/-- `hay.includes(needle)` on strings. -/
def strIncludes (hay needle : String) : Bool :=
  charsInclude needle.data hay.data

/-- Ordering relation of `order("downloads", \x7b ascending: false \x7d)`. -/
def downloadsDescOrder (a b : Template) : Prop :=
  b.downloads ≤ a.downloads

instance : DecidableRel downloadsDescOrder :=
  fun a b => Nat.decLe b.downloads a.downloads

instance : IsTotal Template downloadsDescOrder :=
  ⟨fun a b => Nat.le_total b.downloads a.downloads⟩

instance : IsTrans Template downloadsDescOrder :=
  ⟨fun _ _ _ h1 h2 => Nat.le_trans h2 h1⟩

/-- `fetchTemplates` of `TemplateGallery.tsx`: the catalog ordered by
download count descending. -/
def fetchTemplates (catalog : List Template) : List Template :=
  List.insertionSort downloadsDescOrder catalog

/-- `filterTemplates` of `TemplateGallery.tsx`: when a category other than
"all" is selected, keep templates whose category equals it
case-insensitively; when the search term is non-empty (JS truthiness),
keep templates whose name or category contains it case-insensitively. -/
def filterTemplates (selectedCategory searchTerm : String) (templates : List Template) :
    List Template :=
  let f1 : List Template :=
    if selectedCategory != "all" then
      templates.filter fun t => strToLower t.category == strToLower selectedCategory
    else templates
  if searchTerm != "" then
    f1.filter fun t =>
      strIncludes (strToLower t.name) (strToLower searchTerm) ||
      strIncludes (strToLower t.category) (strToLower searchTerm)
  else f1

/-- The seed rows of `public.resume_templates` from the migration, in
insertion order.  `preview_url` is not supplied by the INSERT and defaults
to NULL; ratings are in tenths. -/
def seededTemplates : List Template :=
  [ { id := "executive-pro", name := "Executive Pro", category := "Executive",
      preview_url := none, is_premium := true, rating := 49, downloads := 12000 },
    { id := "creative-edge", name := "Creative Edge", category := "Creative",
      preview_url := none, is_premium := false, rating := 48, downloads := 8500 },
    { id := "tech-innovator", name := "Tech Innovator", category := "Technology",
      preview_url := none, is_premium := true, rating := 49, downloads := 15000 },
    { id := "modern-minimal", name := "Modern Minimal", category := "Minimalist",
      preview_url := none, is_premium := false, rating := 47, downloads := 9200 },
    { id := "professional-plus", name := "Professional Plus", category := "Business",
      preview_url := none, is_premium := true, rating := 50, downloads := 20000 },
    { id := "designers-choice", name := "Designer\x27s Choice", category := "Creative",
      preview_url := none, is_premium := false, rating := 46, downloads := 6800 } ]

/-- The seeded "Creative Edge" template. -/
def creativeEdgeT : Template :=
  { id := "creative-edge", name := "Creative Edge", category := "Creative",
    preview_url := none, is_premium := false, rating := 48, downloads := 8500 }

/-- The seeded "Designer\x27s Choice" template. -/
def designersChoiceT : Template :=
  { id := "designers-choice", name := "Designer\x27s Choice", category := "Creative",
    preview_url := none, is_premium := false, rating := 46, downloads := 6800 }

/-! ### Helper lemmas -/

/-- Dynamic field assignment on an experience entry never touches `id`. -/
theorem setExpField_id (f : ExpField) (v : String) (e : Experience) :
    (setExpField f v e).id = e.id := by
  cases f <;> rfl

/-- Dynamic field assignment on an education entry never touches `id`. -/
theorem setEduField_id (f : EduField) (v : String) (e : Education) :
    (setEduField f v e).id = e.id := by
  cases f <;> rfl

/-- A single row of an UPDATE statement never changes `user_id`: a skipped
row is untouched, and a permitted row satisfies the update policy against
the updated row, which pins its owner to the caller, who already owns the
existing row. -/
theorem resumeUpdateStep_user_id (now uid rid : Nat) (u : ResumeUpdate) (r : ResumeRow) :
    (resumeUpdateStep now uid rid u r).user_id = r.user_id := by
  unfold resumeUpdateStep
  split
  next h =>
    simp only [Bool.and_eq_true, beq_iff_eq, resumeUpdateAllowed] at h
    obtain ⟨-, h1, h2⟩ := h
    show (applyResumeUpdate u r).user_id = r.user_id
    omega
  next h => rfl

/-- A single row of an UPDATE statement never changes `id` (the payloads of
this application carry no `id` column). -/
theorem resumeUpdateStep_id (now uid rid : Nat) (u : ResumeUpdate) (r : ResumeRow) :
    (resumeUpdateStep now uid rid u r).id = r.id := by
  unfold resumeUpdateStep
  split <;> rfl

/-- A payload that does not assign `is_public` leaves it unchanged on every
row. -/
theorem resumeUpdateStep_is_public (now uid rid : Nat) (u : ResumeUpdate) (r : ResumeRow)
    (h : u.is_public = none) :
    (resumeUpdateStep now uid rid u r).is_public = r.is_public := by
  unfold resumeUpdateStep
  split
  next =>
    show (applyResumeUpdate u r).is_public = r.is_public
    simp [applyResumeUpdate, h]
  next => rfl

/-- Mapping a function that preserves a Boolean predicate commutes with
filtering by that predicate. -/
theorem filter_map_pres {α : Type} (f : α → α) (p : α → Bool) (hp : ∀ a, p (f a) = p a) :
    ∀ l : List α, (l.map f).filter p = (l.filter p).map f
  | [] => rfl
  | a :: t => by
    simp only [List.map_cons, List.filter_cons, hp a]
    cases p a <;> simp [filter_map_pres f p hp t]

/-! ### The claims -/

/-- C1 counterexample: the stored document `\x7b\x7d` (the column default of
`resumes.content`) has every sub-structure absent, yet load-for-edit
returns it unchanged — after load `personalInfo` is still absent, so the
loaded content is not fully defined. -/
theorem c1_counterexample :
    fetchResume 1 1 [⟨1, 1, "New Resume", "modern-minimal", some emptyJsonDoc, false, 0, 0⟩]
      = some ("New Resume", emptyJsonDoc) ∧
    emptyJsonDoc.personalInfo = none ∧
    emptyJsonDoc.fullyDefined = false := by
  refine ⟨?_, rfl, rfl⟩
  decide

/-- C1 (amended): load-for-edit replaces only a wholly absent (JSON null)
content document by the full default shape; a present document is returned
unchanged, so sub-structures absent inside a present document remain
absent after load. -/
theorem c1_load_normalizes_only_whole_document :
    loadContent none = defaultResumeContent.toStored ∧
    (defaultResumeContent.toStored).fullyDefined = true ∧
    ∀ d : StoredDoc, loadContent (some d) = d :=
  ⟨rfl, rfl, fun _ => rfl⟩

/-- C2: on any update of a Profile or Resume row the trigger overwrites the
stored `updated_at` with the store clock, whatever the payload carried; in
particular two save payloads differing only in their caller-supplied
`updated_at` produce identical stored rows. -/
theorem c2_updated_at_refreshed (now : Nat) (u : ResumeUpdate) (r : ResumeRow)
    (v : ProfileUpdate) (p : ProfileRow) (t1 t2 : Nat) (X : String) (C : ResumeContent) :
    (dbResumeRowUpdate now u r).updated_at = now ∧
    (dbProfileRowUpdate now v p).updated_at = now ∧
    dbResumeRowUpdate now (saveResumePayload X C t1) r
      = dbResumeRowUpdate now (saveResumePayload X C t2) r :=
  ⟨rfl, rfl, rfl⟩

/-- C3: the access-control layer makes the owner reference immutable — any
UPDATE statement against the resumes table, whatever its payload, leaves
the `user_id` of every row unchanged (a permitted row must keep its owner
equal to the caller, a rejected row is untouched). -/
theorem c3_owner_immutable (now uid rid : Nat) (u : ResumeUpdate) (db : List ResumeRow) :
    (dbUpdateResumes now uid rid u db).map (fun r => r.user_id)
      = db.map (fun r => r.user_id) := by
  unfold dbUpdateResumes
  rw [List.map_map]
  exact List.map_congr_left fun r _ =>
    resumeUpdateStep_user_id now uid rid u r

/-- C4 counterexample: a resume owned by identity 2 but flagged public
appears in the list fetched by identity 1, refuting "no resume owned by
another identity appears in the result". -/
theorem c4_counterexample :
    ∃ r ∈ fetchResumes 1
        [⟨1, 2, "Shared resume", "modern-minimal",
          some defaultResumeContent.toStored, true, 0, 5⟩],
      r.user_id ≠ 1 := by
  decide

/-- C4 (amended): the list operation returns exactly the resumes the RLS
select policy makes visible to the caller — those owned by the caller or
flagged public — ordered by updated timestamp descending. -/
theorem c4_list_visible_sorted (uid : Nat) (db : List ResumeRow) :
    (∀ r : ResumeRow, r ∈ fetchResumes uid db ↔
      r ∈ db ∧ resumeSelectAllowed uid r = true) ∧
    List.Sorted updatedDescOrder (fetchResumes uid db) := by
  constructor
  · intro r
    unfold fetchResumes
    rw [List.mem_insertionSort]
    exact List.mem_filter
  · exact List.sorted_insertionSort _ _

/-- C5 counterexample: a resume owned by identity 2 but flagged public is
visible to caller 1, yet caller 1's save is silently skipped by the RLS
update policy — the subsequent load-for-edit still returns the old title
"Old", not the saved title "X". -/
theorem c5_counterexample :
    resumeSelectAllowed 1
      ⟨1, 2, "Old", "modern-minimal", some defaultResumeContent.toStored, true, 0, 0⟩ = true ∧
    fetchResume 1 1
      (dbUpdateResumes 10 1 1 (saveResumePayload "X" defaultResumeContent 10)
        [⟨1, 2, "Old", "modern-minimal", some defaultResumeContent.toStored, true, 0, 0⟩])
      = some ("Old", defaultResumeContent.toStored) ∧
    ("Old" : String) ≠ "X" := by
  refine ⟨rfl, ?_, by decide⟩
  decide

/-- C5 (amended): for every existing resume *owned* by the caller (a merely
visible public resume is not updatable), saving title `X` and content `C`
and then loading the same identifier returns title `X` and exactly the
stored image of `C`, and — provided the store clock at the save is later
than the row's previous updated timestamp — the updated timestamp after
the save is strictly greater than before. -/
theorem c5_save_load_roundtrip (uid rid now clientNow : Nat) (X : String) (C : ResumeContent)
    (db : List ResumeRow) (r : ResumeRow)
    (hfind : db.filter (fun q => q.id == rid) = [r])
    (howner : r.user_id = uid)
    (hclock : r.updated_at < now) :
    fetchResume uid rid
        (dbUpdateResumes now uid rid (saveResumePayload X C clientNow) db)
      = some (X, C.toStored) ∧
    (dbUpdateResumes now uid rid (saveResumePayload X C clientNow) db).filter
        (fun q => q.id == rid)
      = [dbResumeRowUpdate now (saveResumePayload X C clientNow) r] ∧
    r.updated_at
      < (dbResumeRowUpdate now (saveResumePayload X C clientNow) r).updated_at := by
  have hrmem : r ∈ db.filter (fun q => q.id == rid) := by
    rw [hfind]; exact List.mem_singleton_self r
  obtain ⟨hmem, hid⟩ := List.mem_filter.mp hrmem
  -- the update step preserves the fields the fetch predicate reads
  have hpres : ∀ q : ResumeRow,
      ((fun q : ResumeRow => q.id == rid && resumeSelectAllowed uid q)
        (resumeUpdateStep now uid rid (saveResumePayload X C clientNow) q))
      = (q.id == rid && resumeSelectAllowed uid q) := by
    intro q
    simp only [resumeSelectAllowed,
      resumeUpdateStep_id now uid rid (saveResumePayload X C clientNow) q,
      resumeUpdateStep_user_id now uid rid (saveResumePayload X C clientNow) q,
      resumeUpdateStep_is_public now uid rid (saveResumePayload X C clientNow) q rfl]
  have hpres2 : ∀ q : ResumeRow,
      ((fun q : ResumeRow => q.id == rid)
        (resumeUpdateStep now uid rid (saveResumePayload X C clientNow) q))
      = (q.id == rid) := by
    intro q
    simp only [resumeUpdateStep_id now uid rid (saveResumePayload X C clientNow) q]
  -- the row visible under the fetch predicate is exactly r
  have hsel : resumeSelectAllowed uid r = true := by
    simp [resumeSelectAllowed, howner]
  have hfull : db.filter (fun q => q.id == rid && resumeSelectAllowed uid q) = [r] := by
    have hcomm : db.filter (fun q : ResumeRow => q.id == rid && resumeSelectAllowed uid q)
        = db.filter (fun q : ResumeRow => resumeSelectAllowed uid q && (q.id == rid)) :=
      List.filter_congr fun a _ => Bool.and_comm _ _
    rw [hcomm, ← List.filter_filter, hfind]
    simp [hsel]
  -- the permitted step on r is the real update
  have hstep : resumeUpdateStep now uid rid (saveResumePayload X C clientNow) r
      = dbResumeRowUpdate now (saveResumePayload X C clientNow) r := by
    unfold resumeUpdateStep
    rw [if_pos]
    rw [Bool.and_eq_true]
    refine ⟨hid, ?_⟩
    show ((uid == r.user_id) && (uid == r.user_id)) = true
    simp [howner]
  constructor
  · unfold fetchResume dbUpdateResumes
    rw [filter_map_pres _ _ hpres, hfull, List.map_cons, List.map_nil, hstep]
    rfl
  constructor
  · unfold dbUpdateResumes
    rw [filter_map_pres _ _ hpres2, hfind, List.map_cons, List.map_nil, hstep]
  · exact hclock

/-- C5 witness: a concrete owned resume, saved at store clock 10 with a
deliberately different client-supplied timestamp 999. -/
theorem c5_witness :
    (([⟨1, 7, "Old", "modern-minimal", some defaultResumeContent.toStored, false, 0, 3⟩]
        : List ResumeRow).filter (fun q => q.id == 1)
      = [⟨1, 7, "Old", "modern-minimal", some defaultResumeContent.toStored, false, 0, 3⟩] ∧
     (⟨1, 7, "Old", "modern-minimal", some defaultResumeContent.toStored, false, 0, 3⟩
        : ResumeRow).user_id = 7 ∧
     (⟨1, 7, "Old", "modern-minimal", some defaultResumeContent.toStored, false, 0, 3⟩
        : ResumeRow).updated_at < 10) ∧
    (fetchResume 7 1
        (dbUpdateResumes 10 7 1 (saveResumePayload "X" defaultResumeContent 999)
          [⟨1, 7, "Old", "modern-minimal", some defaultResumeContent.toStored, false, 0, 3⟩])
      = some ("X", defaultResumeContent.toStored) ∧
     (dbUpdateResumes 10 7 1 (saveResumePayload "X" defaultResumeContent 999)
        [⟨1, 7, "Old", "modern-minimal", some defaultResumeContent.toStored, false, 0, 3⟩]).filter
          (fun q => q.id == 1)
      = [dbResumeRowUpdate 10 (saveResumePayload "X" defaultResumeContent 999)
          ⟨1, 7, "Old", "modern-minimal", some defaultResumeContent.toStored, false, 0, 3⟩] ∧
     (⟨1, 7, "Old", "modern-minimal", some defaultResumeContent.toStored, false, 0, 3⟩
        : ResumeRow).updated_at
      < (dbResumeRowUpdate 10 (saveResumePayload "X" defaultResumeContent 999)
          ⟨1, 7, "Old", "modern-minimal", some defaultResumeContent.toStored, false, 0, 3⟩).updated_at) :=
  ⟨⟨by decide, by decide, by decide⟩,
   c5_save_load_roundtrip 7 1 10 999 "X" defaultResumeContent
     [⟨1, 7, "Old", "modern-minimal", some defaultResumeContent.toStored, false, 0, 3⟩]
     ⟨1, 7, "Old", "modern-minimal", some defaultResumeContent.toStored, false, 0, 3⟩
     (by decide) (by decide) (by decide)⟩

/-- C6: appending an experience entry with a freshly generated identifier
(one not occurring in the current sequence) and then removing by that
identifier restores the experience sequence exactly. -/
theorem c6_add_remove_inverse (newId : String) (c : ResumeContent)
    (hfresh : ∀ e ∈ c.experience, e.id ≠ newId) :
    (removeExperience newId (addExperience newId c)).experience = c.experience := by
  show (c.experience ++
      [({ id := newId, company := "", position := "", startDate := "",
          endDate := "", description := "" } : Experience)]).filter (fun exp => exp.id != newId)
    = c.experience
  rw [List.filter_append]
  have h1 : c.experience.filter (fun exp => exp.id != newId) = c.experience :=
    List.filter_eq_self.mpr fun e he => bne_iff_ne.mpr (hfresh e he)
  rw [h1]
  simp

/-- C6 witness: a one-entry experience sequence and a fresh identifier. -/
theorem c6_witness :
    (∀ e ∈ ({ personalInfo := emptyPersonalInfo,
              experience := [⟨"a", "Acme", "Dev", "2020-01", "", ""⟩],
              education := [], skills := [] } : ResumeContent).experience, e.id ≠ "b") ∧
    (removeExperience "b" (addExperience "b"
        ({ personalInfo := emptyPersonalInfo,
           experience := [⟨"a", "Acme", "Dev", "2020-01", "", ""⟩],
           education := [], skills := [] } : ResumeContent))).experience
      = ({ personalInfo := emptyPersonalInfo,
           experience := [⟨"a", "Acme", "Dev", "2020-01", "", ""⟩],
           education := [], skills := [] } : ResumeContent).experience :=
  ⟨by decide,
   c6_add_remove_inverse "b"
     ({ personalInfo := emptyPersonalInfo,
        experience := [⟨"a", "Acme", "Dev", "2020-01", "", ""⟩],
        education := [], skills := [] } : ResumeContent)
     (by decide)⟩

/-- C7: from the ready state, a save — successful or failed — returns the
session to ready with the in-memory title and content exactly as before,
and a failed save leaves the store untouched. -/
theorem c7_save_preserves_session (now uid rid clientNow : Nat) (ok : Bool) (s : Session)
    (db : List ResumeRow) (hready : s.ready) :
    (saveResume now uid rid clientNow ok s db).1.title = s.title ∧
    (saveResume now uid rid clientNow ok s db).1.content = s.content ∧
    (saveResume now uid rid clientNow ok s db).1.ready ∧
    (ok = false → (saveResume now uid rid clientNow ok s db).2 = db) := by
  obtain ⟨hl, _⟩ := hready
  refine ⟨rfl, rfl, ⟨?_, rfl⟩, ?_⟩
  · exact hl
  · intro hok
    simp [saveResume, hok]

/-- C7 witness: a concrete ready session through a failed save. -/
theorem c7_witness :
    (Session.ready ⟨false, false, "My resume", defaultResumeContent⟩) ∧
    ((saveResume 5 1 1 5 false ⟨false, false, "My resume", defaultResumeContent⟩ []).1.title
        = "My resume" ∧
     (saveResume 5 1 1 5 false ⟨false, false, "My resume", defaultResumeContent⟩ []).1.content
        = defaultResumeContent ∧
     (saveResume 5 1 1 5 false ⟨false, false, "My resume", defaultResumeContent⟩ []).1.ready ∧
     (false = false →
       (saveResume 5 1 1 5 false ⟨false, false, "My resume", defaultResumeContent⟩ []).2
         = [])) :=
  ⟨⟨rfl, rfl⟩,
   c7_save_preserves_session 5 1 1 5 false
     ⟨false, false, "My resume", defaultResumeContent⟩ [] ⟨rfl, rfl⟩⟩

/-- C8: the catalog is fetched ordered by download count descending; with a
category other than "all" selected and a non-empty search term, the filter
keeps exactly the templates whose category equals the selection
case-insensitively and whose name or category contains the term
case-insensitively; and over the seeded catalog, filtering by category
"creative" returns exactly Creative Edge then Designer\x27s Choice
(downloads 8500 then 6800). -/
theorem c8_template_filter (catalog : List Template) (cat term : String) (t : Template)
    (hcat : cat ≠ "all") (hterm : term ≠ "") :
    (t ∈ filterTemplates cat term (fetchTemplates catalog) ↔
      t ∈ catalog ∧ (strToLower t.category == strToLower cat) = true ∧
      (strIncludes (strToLower t.name) (strToLower term) ||
        strIncludes (strToLower t.category) (strToLower term)) = true) ∧
    List.Sorted downloadsDescOrder (fetchTemplates catalog) ∧
    filterTemplates "creative" "" (fetchTemplates seededTemplates)
      = [creativeEdgeT, designersChoiceT] := by
  refine ⟨?_, List.sorted_insertionSort _ _, by decide⟩
  have h1 : (cat != "all") = true := bne_iff_ne.mpr hcat
  have h2 : (term != "") = true := bne_iff_ne.mpr hterm
  unfold filterTemplates fetchTemplates
  simp only [h1, if_true, h2, List.mem_filter, List.mem_insertionSort, and_assoc]

/-- C8 witness: the seeded catalog, category "creative", search term
"edge". -/
theorem c8_witness :
    (("creative" : String) ≠ "all") ∧ (("edge" : String) ≠ "") ∧
    creativeEdgeT ∈ filterTemplates "creative" "edge" (fetchTemplates seededTemplates) :=
  ⟨by decide, by decide,
   ((c8_template_filter seededTemplates "creative" "edge" creativeEdgeT
       (by decide) (by decide)).1.mpr (by decide))⟩

/-- C9: every editing-session mutation targets exactly one top-level
section — each of the nine handlers leaves the three untargeted
sub-structures of the content unchanged, and none of them changes the
session title. -/
theorem c9_frame (s : Session) (c : ResumeContent) (nid tid v w : String)
    (f : ExpField) (g : EduField) (i : Nat) :
    ((addExperience nid c).personalInfo = c.personalInfo ∧
     (addExperience nid c).education = c.education ∧
     (addExperience nid c).skills = c.skills) ∧
    ((updateExperience tid f v c).personalInfo = c.personalInfo ∧
     (updateExperience tid f v c).education = c.education ∧
     (updateExperience tid f v c).skills = c.skills) ∧
    ((removeExperience tid c).personalInfo = c.personalInfo ∧
     (removeExperience tid c).education = c.education ∧
     (removeExperience tid c).skills = c.skills) ∧
    ((addEducation nid c).personalInfo = c.personalInfo ∧
     (addEducation nid c).experience = c.experience ∧
     (addEducation nid c).skills = c.skills) ∧
    ((updateEducation tid g w c).personalInfo = c.personalInfo ∧
     (updateEducation tid g w c).experience = c.experience ∧
     (updateEducation tid g w c).skills = c.skills) ∧
    ((removeEducation tid c).personalInfo = c.personalInfo ∧
     (removeEducation tid c).experience = c.experience ∧
     (removeEducation tid c).skills = c.skills) ∧
    ((addSkill c).personalInfo = c.personalInfo ∧
     (addSkill c).experience = c.experience ∧
     (addSkill c).education = c.education) ∧
    ((updateSkill i v c).personalInfo = c.personalInfo ∧
     (updateSkill i v c).experience = c.experience ∧
     (updateSkill i v c).education = c.education) ∧
    ((removeSkill i c).personalInfo = c.personalInfo ∧
     (removeSkill i c).experience = c.experience ∧
     (removeSkill i c).education = c.education) ∧
    ((Session.applyContentOp (addExperience nid) s).title = s.title ∧
     (Session.applyContentOp (updateExperience tid f v) s).title = s.title ∧
     (Session.applyContentOp (removeExperience tid) s).title = s.title ∧
     (Session.applyContentOp (addEducation nid) s).title = s.title ∧
     (Session.applyContentOp (updateEducation tid g w) s).title = s.title ∧
     (Session.applyContentOp (removeEducation tid) s).title = s.title ∧
     (Session.applyContentOp addSkill s).title = s.title ∧
     (Session.applyContentOp (updateSkill i v) s).title = s.title ∧
     (Session.applyContentOp (removeSkill i) s).title = s.title) :=
  ⟨⟨rfl, rfl, rfl⟩, ⟨rfl, rfl, rfl⟩, ⟨rfl, rfl, rfl⟩, ⟨rfl, rfl, rfl⟩,
   ⟨rfl, rfl, rfl⟩, ⟨rfl, rfl, rfl⟩, ⟨rfl, rfl, rfl⟩, ⟨rfl, rfl, rfl⟩,
   ⟨rfl, rfl, rfl⟩,
   ⟨rfl, rfl, rfl, rfl, rfl, rfl, rfl, rfl, rfl⟩⟩

/-- C10: keyed update and remove on experience and education are no-ops
whenever the identifier is absent from the targeted sequence; and for every
identifier — in particular a present one — update preserves the sequence
length and the per-position identifiers (so the relative order of all
untouched entries), and remove yields an order-preserving sub-sequence
containing every entry whose identifier differs from the target. -/
theorem c10_keyed_ops (tid : String) (f : ExpField) (g : EduField) (v w : String)
    (c : ResumeContent) :
    ((∀ e ∈ c.experience, e.id ≠ tid) → updateExperience tid f v c = c) ∧
    ((∀ e ∈ c.experience, e.id ≠ tid) → removeExperience tid c = c) ∧
    ((∀ e ∈ c.education, e.id ≠ tid) → updateEducation tid g w c = c) ∧
    ((∀ e ∈ c.education, e.id ≠ tid) → removeEducation tid c = c) ∧
    (updateExperience tid f v c).experience.length = c.experience.length ∧
    (updateEducation tid g w c).education.length = c.education.length ∧
    (updateExperience tid f v c).experience.map (fun e => e.id)
      = c.experience.map (fun e => e.id) ∧
    (updateEducation tid g w c).education.map (fun e => e.id)
      = c.education.map (fun e => e.id) ∧
    List.Sublist (removeExperience tid c).experience c.experience ∧
    List.Sublist (removeEducation tid c).education c.education ∧
    (∀ e ∈ c.experience, e.id ≠ tid → e ∈ (removeExperience tid c).experience) ∧
    (∀ e ∈ c.education, e.id ≠ tid → e ∈ (removeEducation tid c).education) := by
  refine ⟨?_, ?_, ?_, ?_, ?_, ?_, ?_, ?_, ?_, ?_, ?_, ?_⟩
  · intro habsE
    have hmapE : (c.experience.map fun exp =>
        if exp.id == tid then setExpField f v exp else exp) = c.experience := by
      rw [List.map_congr_left (g := id) ?_, List.map_id]
      intro e he
      simp [beq_eq_false_iff_ne.mpr (habsE e he)]
    show ({ c with experience := _ } : ResumeContent) = c
    rw [hmapE]
  · intro habsE
    have hfiltE : (c.experience.filter fun exp => exp.id != tid) = c.experience :=
      List.filter_eq_self.mpr fun e he => bne_iff_ne.mpr (habsE e he)
    show ({ c with experience := _ } : ResumeContent) = c
    rw [hfiltE]
  · intro habsU
    have hmapU : (c.education.map fun edu =>
        if edu.id == tid then setEduField g w edu else edu) = c.education := by
      rw [List.map_congr_left (g := id) ?_, List.map_id]
      intro e he
      simp [beq_eq_false_iff_ne.mpr (habsU e he)]
    show ({ c with education := _ } : ResumeContent) = c
    rw [hmapU]
  · intro habsU
    have hfiltU : (c.education.filter fun edu => edu.id != tid) = c.education :=
      List.filter_eq_self.mpr fun e he => bne_iff_ne.mpr (habsU e he)
    show ({ c with education := _ } : ResumeContent) = c
    rw [hfiltU]
  · exact List.length_map _ _
  · exact List.length_map _ _
  · show (c.experience.map fun exp =>
        if exp.id == tid then setExpField f v exp else exp).map (fun e => e.id)
      = c.experience.map (fun e => e.id)
    rw [List.map_map]
    refine List.map_congr_left fun e _ => ?_
    show (if e.id == tid then setExpField f v e else e).id = e.id
    split
    · exact setExpField_id f v e
    · rfl
  · show (c.education.map fun edu =>
        if edu.id == tid then setEduField g w edu else edu).map (fun e => e.id)
      = c.education.map (fun e => e.id)
    rw [List.map_map]
    refine List.map_congr_left fun e _ => ?_
    show (if e.id == tid then setEduField g w e else e).id = e.id
    split
    · exact setEduField_id g w e
    · rfl
  · exact List.filter_sublist _
  · exact List.filter_sublist _
  · intro e he hne
    exact List.mem_filter.mpr ⟨he, bne_iff_ne.mpr hne⟩
  · intro e he hne
    exact List.mem_filter.mpr ⟨he, bne_iff_ne.mpr hne⟩

/-- C10 witness: the identifier "a" is present in the two-entry experience
sequence (so update there is a genuine mutation) and absent from the
education sequence: the education update is a no-op, while the experience
update keeps the length and the per-position identifiers. -/
theorem c10_witness :
    (∀ e ∈ ({ personalInfo := emptyPersonalInfo,
              experience := [⟨"a", "Acme", "Dev", "", "", ""⟩,
                             ⟨"b", "Beta", "QA", "", "", ""⟩],
              education := [⟨"c", "MIT", "BS", "", "", ""⟩],
              skills := ["lean"] } : ResumeContent).education, e.id ≠ "a") ∧
    updateEducation "a" EduField.school "y"
        ({ personalInfo := emptyPersonalInfo,
           experience := [⟨"a", "Acme", "Dev", "", "", ""⟩,
                          ⟨"b", "Beta", "QA", "", "", ""⟩],
           education := [⟨"c", "MIT", "BS", "", "", ""⟩],
           skills := ["lean"] } : ResumeContent)
      = ({ personalInfo := emptyPersonalInfo,
           experience := [⟨"a", "Acme", "Dev", "", "", ""⟩,
                          ⟨"b", "Beta", "QA", "", "", ""⟩],
           education := [⟨"c", "MIT", "BS", "", "", ""⟩],
           skills := ["lean"] } : ResumeContent) ∧
    (updateExperience "a" ExpField.company "x"
        ({ personalInfo := emptyPersonalInfo,
           experience := [⟨"a", "Acme", "Dev", "", "", ""⟩,
                          ⟨"b", "Beta", "QA", "", "", ""⟩],
           education := [⟨"c", "MIT", "BS", "", "", ""⟩],
           skills := ["lean"] } : ResumeContent)).experience.length
      = ({ personalInfo := emptyPersonalInfo,
           experience := [⟨"a", "Acme", "Dev", "", "", ""⟩,
                          ⟨"b", "Beta", "QA", "", "", ""⟩],
           education := [⟨"c", "MIT", "BS", "", "", ""⟩],
           skills := ["lean"] } : ResumeContent).experience.length ∧
    (updateExperience "a" ExpField.company "x"
        ({ personalInfo := emptyPersonalInfo,
           experience := [⟨"a", "Acme", "Dev", "", "", ""⟩,
                          ⟨"b", "Beta", "QA", "", "", ""⟩],
           education := [⟨"c", "MIT", "BS", "", "", ""⟩],
           skills := ["lean"] } : ResumeContent)).experience.map (fun e => e.id)
      = ({ personalInfo := emptyPersonalInfo,
           experience := [⟨"a", "Acme", "Dev", "", "", ""⟩,
                          ⟨"b", "Beta", "QA", "", "", ""⟩],
           education := [⟨"c", "MIT", "BS", "", "", ""⟩],
           skills := ["lean"] } : ResumeContent).experience.map (fun e => e.id) := by
  have h := c10_keyed_ops "a" ExpField.company EduField.school "x" "y"
    ({ personalInfo := emptyPersonalInfo,
       experience := [⟨"a", "Acme", "Dev", "", "", ""⟩,
                      ⟨"b", "Beta", "QA", "", "", ""⟩],
       education := [⟨"c", "MIT", "BS", "", "", ""⟩],
       skills := ["lean"] } : ResumeContent)
  exact ⟨by decide, h.2.2.1 (by decide), h.2.2.2.2.1, h.2.2.2.2.2.2.1⟩

end ResumeApp
